import Mathlib

/-!
Shallow embedding of the bet-tracker pick-job scheduler core
(`app/picks/worker.py`, `app/picks/payload.py`, `app/picks/enqueue.py`,
`app/ai/openai_client.py`) and proofs about it.

Modelling conventions:
* UTC datetimes are modelled as `Int` seconds since the epoch; all the Python
  code normalises to UTC before comparing, so the timezone plumbing
  (`replace(tzinfo=...)`, `astimezone`) is a no-op in the model.
* SQLAlchemy rows become Lean structures; a session/database becomes an
  explicit `Store` value threaded through the functions.  `query(...).filter`
  with `one_or_none` becomes `List.find?`; `order_by(...asc()).limit(n)`
  becomes a stable sort (`List.mergeSort`) followed by `List.take`
  (ties are returned in insertion order, as SQLite does for equal keys).
* Nullable columns become `Option`; Python `None` is `none`.
* The job statuses that occur in the code (`queued/running/done/failed`) are
  an inductive type.
* Python `str.lower()` is modelled for ASCII by `_py_lower`.
* JSON float values coming back from the AI are modelled as `Rat`; the
  `json.dumps` applied to the list-valued pick columns is injective on the
  values that occur, so those columns store the lists themselves.
-/

namespace BetTracker

/-- Job lifecycle status, the four values used by the worker
(`queued | running | done | failed`). -/
inductive JobStatus where
  | queued
  | running
  | done
  | failed
deriving DecidableEq

/-- ASCII lowering of one character, the effect of Python `str.lower()` on the
status strings that occur in the repository. -/
def _py_lower_char (c : Char) : Char :=
  if 'A' ≤ c ∧ c ≤ 'Z' then Char.ofNat (c.toNat + 32) else c

/-- Python `str.lower()` restricted to ASCII strings. -/
def _py_lower (s : String) : String := ⟨s.data.map _py_lower_char⟩

/-- Row of the `games` table (`app/models.py`, class `Game`); only the columns
the scheduler core reads are modelled (scores, raw payload and audit
timestamps are never read by the worker). -/
structure Game where
  id : Nat
  provider : String
  provider_event_id : String
  sport : String
  league : String
  start_time_utc : Option Int
  status : String
  home_team : String
  away_team : String
deriving DecidableEq

/-- Row of the `pick_jobs` table (`app/models.py`, class `PickJob`). -/
structure PickJob where
  id : Nat
  game_id : Nat
  run_at_utc : Int
  status : JobStatus
  attempts : Nat
  locked_at_utc : Option Int
  lock_owner : Option String
  last_error : Option String
  created_at_utc : Int
  updated_at_utc : Int
deriving DecidableEq

/-- Row of the `picks` table (`app/models.py`, class `Pick`).  The `*_json`
columns hold `json.dumps` of lists of strings; the model stores the lists. -/
structure Pick where
  game_id : Nat
  result : String
  market : Option String
  emoji : String
  selection : Option String
  line : Option Rat
  odds_format : Option String
  odds : Option Rat
  p_est : Rat
  p_implied : Option Rat
  ev : Option Rat
  confidence : Int
  stake_u : Rat
  high_prob_low_payout : Bool
  is_value : Bool
  reasons_json : List String
  risks_json : List String
  triggers_json : List String
  missing_data_json : List String
  as_of_utc : String
  notes : String
  raw_ai_json : String
  created_at_utc : Int
  updated_at_utc : Int
deriving DecidableEq

/-- The parsed structured result returned by the Reasoning Client
(`request_pick` returns `json.loads(output_text)`); the fields are exactly the
keys `_upsert_pick` reads from `ai_payload`. -/
structure AiPayload where
  result : String
  market : Option String
  emoji : String
  selection : Option String
  line : Option Rat
  odds_format : Option String
  odds : Option Rat
  p_est : Rat
  p_implied : Option Rat
  ev : Option Rat
  confidence : Int
  stake_u : Rat
  high_prob_low_payout : Bool
  is_value : Bool
  reasons : List String
  risks : List String
  triggers : List String
  missing_data : List String
  as_of_utc : String
  notes : String
deriving DecidableEq

/-- Immutable settings snapshot (`app/settings.py`, `SettingsSnapshot`). -/
structure SettingsSnapshot where
  openai_api_key_enc : Option String
  openai_model : String
  openai_reasoning_effort : String
  auto_picks_enabled : Bool
  auto_picks_concurrency : Nat
  auto_picks_poll_seconds : Nat
  auto_picks_max_retries : Nat
  allow_totals_default : Bool
deriving DecidableEq

/-- The relational store shared by all workers: the three tables the
scheduler core touches.  `games` is read-only for the worker. -/
structure Store where
  games : List Game
  jobs : List PickJob
  picks : List Pick
deriving DecidableEq

/-- Running jobs older than this timeout are considered orphaned and
re-queued (`_RUNNING_STALE_TIMEOUT_SECONDS = 15 * 60` in `worker.py`). -/
def _RUNNING_STALE_TIMEOUT_SECONDS : Int := 15 * 60

/-- Eligibility of a job row for claiming: the SQL filter
`status == "queued" ∧ run_at_utc <= now` of `_claim_jobs`. -/
def _job_due (now : Int) (j : PickJob) : Bool :=
  decide (j.status = JobStatus.queued ∧ j.run_at_utc ≤ now)

/-- Comparison used by `order_by(PickJob.run_at_utc.asc())`. -/
def _run_at_le (a b : PickJob) : Bool :=
  decide (a.run_at_utc ≤ b.run_at_utc)

/-- `worker._claim_jobs`: select up to `concurrency` queued jobs whose
`run_at_utc` has passed, oldest first, stamp them `running` with
`locked_at_utc = now` and the given `lock_owner`, and return their ids.
The whole function is one store transaction. -/
def _claim_jobs (concurrency : Nat) (lock_owner : String) (now : Int)
    (s : Store) : List Nat × Store :=
  let selected := ((s.jobs.filter (_job_due now)).mergeSort _run_at_le).take concurrency
  let job_ids : List Nat := selected.map (fun j => j.id)
  let jobs := s.jobs.map (fun j =>
    if j.id ∈ job_ids then
      { j with status := JobStatus.running, locked_at_utc := some now,
               lock_owner := some lock_owner, updated_at_utc := now }
    else j)
  (job_ids, { s with jobs := jobs })

/-- The SQL filter of `_requeue_stale_running_jobs`:
`status == "running" ∧ locked_at_utc != null ∧ locked_at_utc <= stale_before`. -/
def _stale_running (stale_before : Int) (j : PickJob) : Bool :=
  match j.locked_at_utc with
  | none => false
  | some t => decide (j.status = JobStatus.running ∧ t ≤ stale_before)

/-- The recovery note written by the reaper into `last_error`. -/
def _recovered_note (previous_owner current_lock_owner : String) : String :=
  "Recovered stale running job from lock_owner=" ++ previous_owner ++
    " by lock_owner=" ++ current_lock_owner

/-- `worker._requeue_stale_running_jobs`: return stale `running` jobs to
`queued`, immediately re-eligible, recording a recovery note; returns the
number of recovered jobs. -/
def _requeue_stale_running_jobs (current_lock_owner : String) (now : Int)
    (s : Store) : Nat × Store :=
  let stale_before := now - _RUNNING_STALE_TIMEOUT_SECONDS
  let recovered := (s.jobs.filter (_stale_running stale_before)).length
  let jobs := s.jobs.map (fun j =>
    if _stale_running stale_before j then
      { j with status := JobStatus.queued, run_at_utc := now,
               locked_at_utc := none, lock_owner := none,
               last_error := some (_recovered_note (j.lock_owner.getD "unknown") current_lock_owner),
               updated_at_utc := now }
    else j)
  (recovered, { s with jobs := jobs })

/-- `worker._coerce_no_odds`: force the AI payload to the no-bet
classification and record the missing label (the worker always calls it with
the default label `"odds"`). -/
def _coerce_no_odds (ai_payload : AiPayload) (missing_label : String) : AiPayload :=
  let missing_data :=
    if missing_label ∈ ai_payload.missing_data then ai_payload.missing_data
    else ai_payload.missing_data ++ [missing_label]
  { ai_payload with missing_data := missing_data, result := "NO_BET",
                    stake_u := 0, is_value := false }

/-- `worker._is_in_pregame_window`: the pre-game eligibility window.  The
Python default for `pregame_window_hours` is 2; callers in the worker use the
default. -/
def _is_in_pregame_window (game_start_utc : Option Int) (now_utc : Int)
    (pregame_window_hours : Int) : Bool :=
  match game_start_utc with
  | none => false
  | some start =>
    let window_start := start - pregame_window_hours * 3600
    decide (window_start ≤ now_utc ∧ now_utc ≤ start)

/-- `payload.build_game_payload`: the request payload sent to the Reasoning
Client.  `as_of_utc` is `datetime.now` at build time, passed in as `now`;
`start_time_utc.isoformat()` is abstracted to the timestamp itself. -/
structure GamePayload where
  sport : String
  league : String
  home_team : String
  away_team : String
  start_time_utc : Option Int
  odds : Option Rat
  allow_totals : Bool
  as_of_utc : Int
  sources : List String
deriving DecidableEq

/-- `payload.build_game_payload` (`app/picks/payload.py`). -/
def build_game_payload (game : Game) (settings : SettingsSnapshot) (now : Int) :
    GamePayload :=
  { sport := game.sport
    league := game.league
    home_team := game.home_team
    away_team := game.away_team
    start_time_utc := game.start_time_utc
    odds := none
    allow_totals := settings.allow_totals_default
    as_of_utc := now
    sources := [] }

/-- A freshly constructed `Pick(game_id=..., created_at_utc=now)` row, with
the column defaults of `app/models.py`; `_upsert_pick` immediately overwrites
every payload-derived field. -/
def _new_pick (game_id : Nat) (now : Int) : Pick :=
  { game_id := game_id
    result := "NO_BET"
    market := none
    emoji := ""
    selection := none
    line := none
    odds_format := none
    odds := none
    p_est := 0
    p_implied := none
    ev := none
    confidence := 0
    stake_u := 0
    high_prob_low_payout := false
    is_value := false
    reasons_json := []
    risks_json := []
    triggers_json := []
    missing_data_json := []
    as_of_utc := ""
    notes := ""
    raw_ai_json := ""
    created_at_utc := now
    updated_at_utc := now }

/-- The field assignments of `worker._upsert_pick` applied to a pick row. -/
def _assign_pick_fields (ai_payload : AiPayload) (raw_ai_json : String)
    (now : Int) (pick : Pick) : Pick :=
  { pick with
    result := ai_payload.result
    market := ai_payload.market
    emoji := ai_payload.emoji
    selection := ai_payload.selection
    line := ai_payload.line
    odds_format := ai_payload.odds_format
    odds := ai_payload.odds
    p_est := ai_payload.p_est
    p_implied := ai_payload.p_implied
    ev := ai_payload.ev
    confidence := ai_payload.confidence
    stake_u := ai_payload.stake_u
    high_prob_low_payout := ai_payload.high_prob_low_payout
    is_value := ai_payload.is_value
    reasons_json := ai_payload.reasons
    risks_json := ai_payload.risks
    triggers_json := ai_payload.triggers
    missing_data_json := ai_payload.missing_data
    as_of_utc := ai_payload.as_of_utc
    notes := ai_payload.notes
    raw_ai_json := raw_ai_json
    updated_at_utc := now }

/-- Update the first pick row matching `game_id` (the row returned by
`one_or_none`). -/
def _update_first_pick (game_id : Nat) (f : Pick → Pick) :
    List Pick → List Pick
  | [] => []
  | pk :: rest =>
      if pk.game_id = game_id then f pk :: rest
      else pk :: _update_first_pick game_id f rest

/-- `worker._upsert_pick`: create the pick row for the game if absent, else
overwrite it; either way all payload-derived columns are assigned. -/
def _upsert_pick (picks : List Pick) (game_id : Nat) (ai_payload : AiPayload)
    (raw_ai_json : String) (now : Int) : List Pick :=
  match picks.find? (fun pk => decide (pk.game_id = game_id)) with
  | some _ => _update_first_pick game_id (_assign_pick_fields ai_payload raw_ai_json now) picks
  | none => picks ++ [_assign_pick_fields ai_payload raw_ai_json now (_new_pick game_id now)]

/-- Outcome of the `request_pick` call as observed by the executor: either it
returns a parsed payload and the raw response, or it raises; the carried
string is the executor's summary of the exception, formatted as the
exception class name, a colon and the message.  Any
exception raised inside steps 2-6 of the executor that is not the explicit
`RuntimeError("Game not found for job.")` is represented here. -/
inductive AiOutcome where
  | raises (error_summary : String)
  | returns (ai_payload : AiPayload) (raw_ai_json : String)
deriving DecidableEq

/-- The `except Exception` handler of `worker._process_job_sync`: roll back
(the model applies it to the pre-exception store), re-load the job, increment
`attempts`, record `last_error`, re-queue or fail, and clear the lock. -/
def _fail_job (job_id : Nat) (settings : SettingsSnapshot) (now : Int)
    (error_summary : String) (s : Store) : Store :=
  match s.jobs.find? (fun j => decide (j.id = job_id)) with
  | none => s
  | some _ =>
    let jobs := s.jobs.map (fun j =>
      if j.id = job_id then
        let attempts := j.attempts + 1
        let j' := { j with attempts := attempts, last_error := some error_summary,
                           updated_at_utc := now }
        if attempts ≤ settings.auto_picks_max_retries then
          { j' with status := JobStatus.queued, run_at_utc := now,
                    locked_at_utc := none, lock_owner := none }
        else
          { j' with status := JobStatus.failed,
                    locked_at_utc := none, lock_owner := none }
      else j)
    { s with jobs := jobs }

/-- The `done`-marking commits of `worker._process_job_sync`.  The benign-skip
paths assign `last_error` (passed as `some message`); the pick-exists and
success paths leave `last_error` untouched (`none` here). -/
def _mark_done (job_id : Nat) (skip_error : Option String) (now : Int)
    (s : Store) : Store :=
  let jobs := s.jobs.map (fun j =>
    if j.id = job_id then
      { j with status := JobStatus.done,
               last_error := match skip_error with
                 | some e => some e
                 | none => j.last_error,
               updated_at_utc := now }
    else j)
  { s with jobs := jobs }

/-- `worker._process_job_sync`: one execution of a claimed job.  All the
`_utcnow()` readings inside one invocation are modelled by the single `now`.
The returned `Bool` records whether the Reasoning Client was invoked. -/
def _process_job_sync (job_id : Nat) (settings : SettingsSnapshot)
    (lock_owner : String) (now : Int) (ai : AiOutcome) (s : Store) :
    Store × Bool :=
  match s.jobs.find? (fun j => decide (j.id = job_id)) with
  | none => (s, false)
  | some job =>
    if job.status ≠ JobStatus.running ∨ job.lock_owner ≠ some lock_owner then
      (s, false)
    else
      match s.games.find? (fun g => decide (g.id = job.game_id)) with
      | none => (_fail_job job_id settings now "RuntimeError: Game not found for job." s, false)
      | some game =>
        if game.provider ≠ "espn" then
          (_mark_done job_id (some "Skipped non-ESPN game") now s, false)
        else if _py_lower game.status ≠ "scheduled" then
          (_mark_done job_id (some ("Skipped game status=" ++ game.status)) now s, false)
        else if _is_in_pregame_window game.start_time_utc now 2 = false then
          (_mark_done job_id (some "Skipped game outside pregame window") now s, false)
        else
          match s.picks.find? (fun pk => decide (pk.game_id = job.game_id)) with
          | some _ => (_mark_done job_id none now s, false)
          | none =>
            let payload := build_game_payload game settings now
            match ai with
            | AiOutcome.raises error_summary =>
                (_fail_job job_id settings now error_summary s, true)
            | AiOutcome.returns ai_payload raw_ai_json =>
                let ai_payload :=
                  if payload.odds = none then _coerce_no_odds ai_payload "odds"
                  else ai_payload
                let picks := _upsert_pick s.picks game.id ai_payload raw_ai_json now
                (_mark_done job_id none now { s with picks := picks }, true)

/-- `enqueue._enqueue_for_game`: create (or revive a failed) pick job for a
game inside its pre-game window; the Python defaults are `now = utcnow` and
`pregame_window_hours = 2`.  New rows get the next free autoincrement id. -/
def _enqueue_for_game (game : Game) (now : Int) (pregame_window_hours : Int)
    (s : Store) : Bool × Store :=
  match game.start_time_utc with
  | none => (false, s)
  | some game_start_utc =>
    if _py_lower game.status ≠ "scheduled" then (false, s)
    else if ¬ (game_start_utc - pregame_window_hours * 3600 ≤ now ∧
               now ≤ game_start_utc) then (false, s)
    else
      match s.picks.find? (fun pk => decide (pk.game_id = game.id)) with
      | some _ => (false, s)
      | none =>
        match s.jobs.find? (fun j => decide (j.game_id = game.id)) with
        | some existing =>
          if existing.status ≠ JobStatus.failed then (false, s)
          else
            let jobs := s.jobs.map (fun j =>
              if j.id = existing.id then
                { j with status := JobStatus.queued, attempts := 0,
                         run_at_utc := now, locked_at_utc := none,
                         lock_owner := none, last_error := none,
                         updated_at_utc := now }
              else j)
            (true, { s with jobs := jobs })
        | none =>
          let new_id := (s.jobs.map (fun j => j.id)).foldr Nat.max 0 + 1
          (true, { s with jobs := s.jobs ++
            [{ id := new_id, game_id := game.id, run_at_utc := now,
               status := JobStatus.queued, attempts := 0, locked_at_utc := none,
               lock_owner := none, last_error := none, created_at_utc := now,
               updated_at_utc := now }] })

/-! Model of `app/ai/openai_client.py`.  The HTTP transport is an
environment parameter: `transport i` is what the `i`-th `requests.post` call
does.  Nested-JSON plumbing is pre-extracted: `RespJson` carries the fields
`_response_debug_summary` and `_extract_output_text` read from the response
body, with `output_text` the string `_extract_output_text` returns (`""` when
absent) and `output_parsed` the result of `json.loads(output_text)` (`none`
when that raises `JSONDecodeError`). -/

/-- Constant `MAX_ERROR_SNIPPET = 2000`. -/
def MAX_ERROR_SNIPPET : Nat := 2000

/-- Constant `OPENAI_MAX_ATTEMPTS = 3`. -/
def OPENAI_MAX_ATTEMPTS : Nat := 3

/-- `openai_client._truncate` (the caller always uses the default limit
`MAX_ERROR_SNIPPET`). -/
def _truncate (value : String) (limit : Nat) : String :=
  if value.length ≤ limit then value else value.take limit ++ "...<truncated>"

/-- The fields of a well-formed JSON response body, as read by
`_response_debug_summary` / `_extract_output_text` / the final parse.
`dump` stands for `json.dumps(response_json)`.  Optional strings are `none`
when the key is absent or falsy. -/
structure RespJson where
  status : Option String
  incomplete_reason : Option String
  error_message : Option String
  error_code : Option String
  output_content_types : List String
  output_text : String
  output_parsed : Option AiPayload
  dump : String
deriving DecidableEq

/-- One `requests.post` to the upstream API: what `response.json()` would
give (`none` = body is not JSON). -/
structure ApiResponse where
  status_code : Nat
  text : String
  asJson : Option RespJson
deriving DecidableEq

/-- Behaviour of one transport-level attempt. -/
inductive AttemptOutcome where
  | timeout (message : String)
  | conn_error (message : String)
  | response (r : ApiResponse)

/-- `openai_client._response_debug_summary`.  Python's `repr` of the
content-type list is abstracted to a bracketed comma join. -/
def _response_debug_summary (r : RespJson) : String :=
  let parts : List String :=
    (match r.status with
      | some st => if st = "" then [] else ["status=" ++ st]
      | none => []) ++
    (match r.incomplete_reason with
      | some reason => if reason = "" then [] else ["incomplete_reason=" ++ reason]
      | none => []) ++
    (match r.error_message with
      | some m => if m = "" then [] else ["error_message=" ++ m]
      | none => []) ++
    (match r.error_code with
      | some c => if c = "" then [] else ["error_code=" ++ c]
      | none => []) ++
    (if r.output_content_types = [] then []
     else ["output_content_types=[" ++ String.intercalate ", " r.output_content_types ++ "]"])
  let parts := if parts = [] then ["no_debug_fields"] else parts
  String.intercalate "; " (parts ++ ["response_json=" ++ _truncate r.dump MAX_ERROR_SNIPPET])

/-- The `for attempt in range(1, OPENAI_MAX_ATTEMPTS + 1)` retry loop of
`request_pick`.  Returns (loop outcome, last timeout message, number of posts
made, sleep durations); `Except.error` is the immediately re-raised
`requests.RequestException`, `Except.ok none` means the loop exhausted all
attempts on timeouts. -/
def _attempt_loop (transport : Nat → AttemptOutcome) :
    Nat → Nat → Nat → List Nat → Option String →
    Except String (Option ApiResponse) × Option String × Nat × List Nat
  | _, 0, posts, sleeps, last_exc => (Except.ok none, last_exc, posts, sleeps)
  | attempt, fuel + 1, posts, sleeps, last_exc =>
    match transport posts with
    | AttemptOutcome.response r => (Except.ok (some r), last_exc, posts + 1, sleeps)
    | AttemptOutcome.timeout m =>
        if attempt = OPENAI_MAX_ATTEMPTS then (Except.ok none, some m, posts + 1, sleeps)
        else _attempt_loop transport (attempt + 1) fuel (posts + 1) (sleeps ++ [attempt]) (some m)
    | AttemptOutcome.conn_error m =>
        (Except.error ("OpenAI request failed: " ++ m), last_exc, posts + 1, sleeps)

/-- Result of `request_pick` plus the observable transport effects: how many
`requests.post` calls were made and the `time.sleep` durations. -/
structure RequestResult where
  result : Except String (AiPayload × String)
  posts : Nat
  sleeps : List Nat

/-- `openai_client.request_pick`.  `api_key` is the decrypted key
(`decrypt_api_key` result); the request body never carries any output-token
budget (`_build_response_payload` sets no `max_output_tokens`), so the
transport behaviour is the same function for every attempt. -/
def request_pick (transport : Nat → AttemptOutcome) (api_key : Option String) :
    RequestResult :=
  let key_ok := match api_key with
    | none => false
    | some k => decide (k ≠ "")
  if key_ok = false then
    { result := Except.error "Missing OpenAI API key", posts := 0, sleeps := [] }
  else
    match _attempt_loop transport 1 OPENAI_MAX_ATTEMPTS 0 [] none with
    | (Except.error e, _, posts, sleeps) =>
        { result := Except.error e, posts := posts, sleeps := sleeps }
    | (Except.ok none, last_exc, posts, sleeps) =>
        { result := Except.error
            ("OpenAI request failed after retries due to timeout. " ++
             "Try lowering reasoning effort or retrying later. Last error: " ++
             last_exc.getD "")
          posts := posts, sleeps := sleeps }
    | (Except.ok (some r), _, posts, sleeps) =>
        match r.asJson with
        | none =>
          if r.status_code ≥ 400 then
            { result := Except.error ("OpenAI API error " ++ toString r.status_code ++
                ": non-JSON response=" ++ _truncate r.text MAX_ERROR_SNIPPET)
              posts := posts, sleeps := sleeps }
          else
            { result := Except.error ("OpenAI API returned non-JSON response: " ++
                _truncate r.text MAX_ERROR_SNIPPET)
              posts := posts, sleeps := sleeps }
        | some rj =>
          if r.status_code ≥ 400 then
            { result := Except.error ("OpenAI API error " ++ toString r.status_code ++
                ": " ++ _response_debug_summary rj)
              posts := posts, sleeps := sleeps }
          else if rj.output_text = "" then
            { result := Except.error ("OpenAI response missing output_text: " ++
                _response_debug_summary rj)
              posts := posts, sleeps := sleeps }
          else
            match rj.output_parsed with
            | none =>
              { result := Except.error ("OpenAI response was not valid JSON; output_text=" ++
                  _truncate rj.output_text MAX_ERROR_SNIPPET)
                posts := posts, sleeps := sleeps }
            | some parsed =>
              { result := Except.ok (parsed, rj.dump), posts := posts, sleeps := sleeps }

/-- A well-formed 200 response marked incomplete because of the output-token
limit (`status=incomplete`, `incomplete_details.reason=max_output_tokens`)
whose output holds no `output_text` item — the scenario of the repository's
own test `test_request_pick_retries_with_higher_max_output_tokens_on_incomplete`. -/
def _incomplete_resp_json : RespJson :=
  { status := some "incomplete"
    incomplete_reason := some "max_output_tokens"
    error_message := none
    error_code := none
    output_content_types := ["summary_text"]
    output_text := ""
    output_parsed := none
    dump := "raw-upstream-json" }

/-- Transport that answers every POST with the incomplete 200 response. -/
def _incomplete_transport : Nat → AttemptOutcome := fun _ =>
  AttemptOutcome.response
    { status_code := 200, text := "raw-upstream-json", asJson := some _incomplete_resp_json }

/-- A scheduled ESPN game starting one hour from time 0, used as concrete
input below. -/
def _espn_game : Game :=
  { id := 5, provider := "espn", provider_event_id := "ev-5", sport := "basketball",
    league := "NBA", start_time_utc := some 3600, status := "scheduled",
    home_team := "Home", away_team := "Away" }

/-- A pick job for `_espn_game`, already claimed by `worker-1` at time 0. -/
def _claimed_job : PickJob :=
  { id := 1, game_id := 5, run_at_utc := 0, status := JobStatus.running,
    attempts := 0, locked_at_utc := some 0, lock_owner := some "worker-1",
    last_error := none, created_at_utc := 0, updated_at_utc := 0 }

/-- Store holding `_espn_game` and the claimed job, with no picks yet. -/
def _claimed_store : Store := { games := [_espn_game], jobs := [_claimed_job], picks := [] }

/-- An AI payload claiming a value bet with a positive stake, to exercise the
no-odds coercion. -/
def _bet_payload : AiPayload :=
  { result := "BET", market := some "ML", emoji := "+", selection := some "Home",
    line := none, odds_format := some "american", odds := some 110, p_est := 0,
    p_implied := none, ev := none, confidence := 7, stake_u := 2,
    high_prob_low_payout := false, is_value := true, reasons := ["r"],
    risks := [], triggers := [], missing_data := [], as_of_utc := "t0", notes := "" }

/-- Default settings snapshot (`app/settings.py`, `_default_settings`), with a
configured key. -/
def _default_snapshot : SettingsSnapshot :=
  { openai_api_key_enc := some "enc-key", openai_model := "gpt-5",
    openai_reasoning_effort := "high", auto_picks_enabled := true,
    auto_picks_concurrency := 2, auto_picks_poll_seconds := 30,
    auto_picks_max_retries := 2, allow_totals_default := false }

/-- A running job abandoned by worker `w1` at time 0, with an earlier failure
message still in `last_error`. -/
def _stale_job : PickJob :=
  { id := 1, game_id := 5, run_at_utc := 0, status := JobStatus.running,
    attempts := 2, locked_at_utc := some 0, lock_owner := some "w1",
    last_error := some "previous failure", created_at_utc := 0, updated_at_utc := 0 }

/-- Store holding only the stale running job. -/
def _stale_store : Store := { games := [], jobs := [_stale_job], picks := [] }

/-- `_claimed_store` after a pick row for the game has appeared. -/
def _picked_store : Store :=
  { games := [_espn_game], jobs := [_claimed_job], picks := [_new_pick 5 0] }

/-- The no-bet classification over a persisted pick row: the predicate C10
says every executor-persisted Pick satisfies. -/
def pick_no_bet (pk : Pick) : Prop :=
  pk.result = "NO_BET" ∧ pk.stake_u = 0 ∧ pk.is_value = false

/-- Lock-metadata consistency of one job row (amended invariant): a
`running` or `done` row carries non-null `locked_at`/`lock_owner`, a
`queued` or `failed` row carries null ones.  (`done` keeps the lock stamp
because the executor's done-paths never clear it.) -/
def lock_metadata_ok (j : PickJob) : Bool :=
  match j.status with
  | JobStatus.running => j.locked_at_utc.isSome && j.lock_owner.isSome
  | JobStatus.done => j.locked_at_utc.isSome && j.lock_owner.isSome
  | JobStatus.queued => j.locked_at_utc.isNone && j.lock_owner.isNone
  | JobStatus.failed => j.locked_at_utc.isNone && j.lock_owner.isNone

/-- A scheduled game from a non-ESPN provider (executor benign-skip path). -/
def _other_game : Game :=
  { id := 5, provider := "other", provider_event_id := "x-5", sport := "basketball",
    league := "NBA", start_time_utc := some 3600, status := "scheduled",
    home_team := "Home", away_team := "Away" }

/-- A freshly enqueued job for `_other_game`, due at time 0. -/
def _queued_job : PickJob :=
  { id := 1, game_id := 5, run_at_utc := 0, status := JobStatus.queued,
    attempts := 0, locked_at_utc := none, lock_owner := none,
    last_error := none, created_at_utc := 0, updated_at_utc := 0 }

/-- Store holding `_other_game` and the queued job. -/
def _queued_store : Store := { games := [_other_game], jobs := [_queued_job], picks := [] }

/-- `_queued_job` as `_claim_jobs` leaves it at time 0 under `worker-1`. -/
def _running_other_job : PickJob :=
  { id := 1, game_id := 5, run_at_utc := 0, status := JobStatus.running,
    attempts := 0, locked_at_utc := some 0, lock_owner := some "worker-1",
    last_error := none, created_at_utc := 0, updated_at_utc := 0 }

/-- One scheduler cycle in which every execution raises: claim a batch under
`lock_owner`, then run the executor on each claimed id with the Reasoning
Client raising `msg` — the claim-then-execute batch of `run_worker` when
every upstream call fails. -/
def _fail_cycle (settings : SettingsSnapshot) (lock_owner : String) (now : Int)
    (msg : String) (s : Store) : Store :=
  let claimed := _claim_jobs settings.auto_picks_concurrency lock_owner now s
  claimed.1.foldl
    (fun st jid =>
      (_process_job_sync jid settings lock_owner now (AiOutcome.raises msg) st).1)
    claimed.2

/-- The failure-policy bookkeeping required after one failed execution of
`job`: partial writes rolled back (picks and games untouched), `attempts`
incremented by exactly one, lock cleared, `last_error` recorded, and
re-queue with `run_at=now` when `attempts <= max_retries`, else `failed`;
rows of other jobs are untouched. -/
def failed_attempt_post (settings : SettingsSnapshot) (now : Int) (msg : String)
    (job : PickJob) (s s' : Store) : Prop :=
  s'.games = s.games ∧ s'.picks = s.picks
  ∧ (∃ j', s'.jobs.find? (fun j => decide (j.id = job.id)) = some j'
      ∧ j'.attempts = job.attempts + 1
      ∧ j'.locked_at_utc = none ∧ j'.lock_owner = none
      ∧ j'.last_error = some msg
      ∧ (job.attempts + 1 ≤ settings.auto_picks_max_retries →
           j'.status = JobStatus.queued ∧ j'.run_at_utc = now)
      ∧ (settings.auto_picks_max_retries < job.attempts + 1 →
           j'.status = JobStatus.failed))
  ∧ (∀ j ∈ s'.jobs, j.id ≠ job.id → j ∈ s.jobs)

/-! Theorems. -/

/-- The reaper's SQL filter, phrased as the spec states it. -/
theorem _stale_running_iff (b : Int) (j : PickJob) :
    _stale_running b j = true ↔
      j.status = JobStatus.running ∧ ∃ t, j.locked_at_utc = some t ∧ t ≤ b := by
  cases h : j.locked_at_utc <;> simp [_stale_running, h]

/-- The coercion always records the missing label. -/
theorem _coerce_no_odds_mem (p : AiPayload) (lbl : String) :
    lbl ∈ (_coerce_no_odds p lbl).missing_data := by
  unfold _coerce_no_odds
  by_cases h : lbl ∈ p.missing_data
  · simp [h]
  · simp [h]

/-- C5: for every game, now, and (non-negative) window: the eligibility check
returns false when the game's start time is absent, and otherwise returns
true iff `start_time - window_hours <= now <= start_time`, with both
boundaries inclusive — true at exactly `start - window` and at exactly
`start`, false at `start - window - 1s` and at `start + 1s`. -/
theorem C5_pregame_window_boundaries (start now w : Int) (hw : 0 ≤ w) :
    _is_in_pregame_window none now w = false
  ∧ (_is_in_pregame_window (some start) now w = true ↔
       start - w * 3600 ≤ now ∧ now ≤ start)
  ∧ _is_in_pregame_window (some start) (start - w * 3600) w = true
  ∧ _is_in_pregame_window (some start) start w = true
  ∧ _is_in_pregame_window (some start) (start - w * 3600 - 1) w = false
  ∧ _is_in_pregame_window (some start) (start + 1) w = false := by
  refine ⟨rfl, ?_, ?_, ?_, ?_, ?_⟩ <;>
    simp only [_is_in_pregame_window, decide_eq_true_eq, decide_eq_false_iff_not,
      not_and, not_le] <;> omega

/-- Witness for C5 at `start = 7200`, `now = 0`, `w = 2` (the production
window of two hours). -/
theorem C5_pregame_window_boundaries_witness :
    (0 : Int) ≤ 2
  ∧ (_is_in_pregame_window none 0 2 = false
  ∧ (_is_in_pregame_window (some 7200) 0 2 = true ↔
       (7200 : Int) - 2 * 3600 ≤ 0 ∧ (0 : Int) ≤ 7200)
  ∧ _is_in_pregame_window (some 7200) (7200 - 2 * 3600) 2 = true
  ∧ _is_in_pregame_window (some 7200) 7200 2 = true
  ∧ _is_in_pregame_window (some 7200) (7200 - 2 * 3600 - 1) 2 = false
  ∧ _is_in_pregame_window (some 7200) (7200 + 1) 2 = false) :=
  ⟨by decide, C5_pregame_window_boundaries 7200 0 2 (by decide)⟩

/-- C8: a connection/read timeout is retried up to the fixed attempt ceiling
`OPENAI_MAX_ATTEMPTS`, sleeping `attempt_number` seconds between consecutive
attempts (linearly increasing backoff, here `[1, 2]`), and once the ceiling
is exhausted the call fails with the "timeout after retries" client error
instead of returning a result. -/
theorem C8_timeout_retry_policy (transport : Nat → AttemptOutcome)
    (api_key msg : String) (hkey : api_key ≠ "")
    (ht : ∀ i, transport i = AttemptOutcome.timeout msg) :
    (request_pick transport (some api_key)).posts = OPENAI_MAX_ATTEMPTS
  ∧ (request_pick transport (some api_key)).sleeps = [1, 2]
  ∧ (request_pick transport (some api_key)).result =
      Except.error ("OpenAI request failed after retries due to timeout. " ++
        "Try lowering reasoning effort or retrying later. Last error: " ++ msg) := by
  have hloop : _attempt_loop transport 1 3 0 [] none
      = (Except.ok none, some msg, 3, [1, 2]) := by
    simp [_attempt_loop, ht, OPENAI_MAX_ATTEMPTS]
  simp [request_pick, hkey, hloop, OPENAI_MAX_ATTEMPTS]

/-- Witness for C8: every POST times out with "read timeout". -/
theorem C8_timeout_retry_policy_witness :
    ("sk-live" ≠ "")
  ∧ ((request_pick (fun _ => AttemptOutcome.timeout "read timeout") (some "sk-live")).posts
        = OPENAI_MAX_ATTEMPTS
  ∧ (request_pick (fun _ => AttemptOutcome.timeout "read timeout") (some "sk-live")).sleeps
        = [1, 2]
  ∧ (request_pick (fun _ => AttemptOutcome.timeout "read timeout") (some "sk-live")).result =
      Except.error ("OpenAI request failed after retries due to timeout. " ++
        "Try lowering reasoning effort or retrying later. Last error: " ++ "read timeout")) :=
  ⟨by decide, C8_timeout_retry_policy _ _ _ (by decide) (fun _ => rfl)⟩

/-- C3 (refuting evidence): on a well-formed 200 response that is marked
incomplete due to the output-length limit, `request_pick` makes exactly one
POST and raises the terminal "missing output_text" client error — it never
retries with a doubled output-length budget (the request body carries no
output-token budget at all). -/
theorem C3_incomplete_output_not_retried :
    (request_pick _incomplete_transport (some "sk-live")).posts = 1
  ∧ (request_pick _incomplete_transport (some "sk-live")).result =
      Except.error ("OpenAI response missing output_text: " ++
        "status=incomplete; incomplete_reason=max_output_tokens; " ++
        "output_content_types=[summary_text]; response_json=raw-upstream-json") := by
  constructor <;> rfl

/-- C6: when the executor reaches the Reasoning Client with a request payload
that has no odds (which `build_game_payload` always produces), the Pick it
persists has `result=NO_BET`, `stake_u=0`, `is_value=false`, and `"odds"` in
its missing-data list — regardless of what the client returned. -/
theorem C6_no_odds_forces_no_bet (job : PickJob) (game : Game)
    (settings : SettingsSnapshot) (lock_owner raw : String) (now : Int)
    (p : AiPayload) (s : Store)
    (hfind : s.jobs.find? (fun j => decide (j.id = job.id)) = some job)
    (hrun : job.status = JobStatus.running)
    (hown : job.lock_owner = some lock_owner)
    (hgame : s.games.find? (fun g => decide (g.id = job.game_id)) = some game)
    (hprov : game.provider = "espn")
    (hsched : _py_lower game.status = "scheduled")
    (hwin : _is_in_pregame_window game.start_time_utc now 2 = true)
    (hnopick : s.picks.find? (fun pk => decide (pk.game_id = job.game_id)) = none)
    (hodds : (build_game_payload game settings now).odds = none) :
    ∃ pk : Pick,
      ((_process_job_sync job.id settings lock_owner now
          (AiOutcome.returns p raw) s).1).picks = s.picks ++ [pk]
    ∧ pk.game_id = game.id
    ∧ pk.result = "NO_BET"
    ∧ pk.stake_u = 0
    ∧ pk.is_value = false
    ∧ "odds" ∈ pk.missing_data_json := by
  have hgid : game.id = job.game_id := by
    have h := List.find?_some hgame
    simpa using h
  refine ⟨_assign_pick_fields (_coerce_no_odds p "odds") raw now (_new_pick game.id now),
    ?_, rfl, rfl, rfl, rfl, ?_⟩
  · simp only [_process_job_sync, hfind, hrun, hown, hgame, hprov, hsched, hwin,
      build_game_payload, hgid, hnopick, _mark_done, _upsert_pick]
    simp [_upsert_pick, hgid, hnopick]
  · simpa [_assign_pick_fields] using _coerce_no_odds_mem p "odds"

/-- Witness for C6: the claimed job on `_claimed_store` at time 0, the client
returning `_bet_payload`. -/
theorem C6_no_odds_forces_no_bet_witness :
    _claimed_store.jobs.find? (fun j => decide (j.id = _claimed_job.id)) = some _claimed_job
  ∧ ∃ pk : Pick,
      ((_process_job_sync _claimed_job.id _default_snapshot "worker-1" 0
          (AiOutcome.returns _bet_payload "raw") _claimed_store).1).picks
        = _claimed_store.picks ++ [pk]
    ∧ pk.game_id = _espn_game.id
    ∧ pk.result = "NO_BET"
    ∧ pk.stake_u = 0
    ∧ pk.is_value = false
    ∧ "odds" ∈ pk.missing_data_json :=
  ⟨rfl, C6_no_odds_forces_no_bet _claimed_job _espn_game _default_snapshot "worker-1"
    "raw" 0 _bet_payload _claimed_store rfl rfl rfl rfl rfl (by decide) (by decide) rfl rfl⟩

/-- C4 (amended): one run of the reaper resets every job with
`status=running` and non-null `locked_at <= now - stale_timeout` to
`status=queued`, `run_at=now`, clears `locked_at`/`lock_owner`, leaves
`attempts` unchanged, and overwrites `last_error` with a note naming the
previous owner and the recovering owner (prior `last_error` content is
discarded, not appended to); jobs not matching the condition are left
unchanged, and the returned count is the number of matching jobs. -/
theorem C4_reaper_requeues_stale (current_lock_owner : String) (now : Int)
    (s : Store) :
    (_requeue_stale_running_jobs current_lock_owner now s).1
      = (s.jobs.filter (_stale_running (now - _RUNNING_STALE_TIMEOUT_SECONDS))).length
  ∧ (_requeue_stale_running_jobs current_lock_owner now s).2.games = s.games
  ∧ (_requeue_stale_running_jobs current_lock_owner now s).2.picks = s.picks
  ∧ (_requeue_stale_running_jobs current_lock_owner now s).2.jobs.length = s.jobs.length
  ∧ ∀ i (hi : i < s.jobs.length)
      (hi2 : i < (_requeue_stale_running_jobs current_lock_owner now s).2.jobs.length),
      ((s.jobs[i].status = JobStatus.running ∧
          ∃ t, s.jobs[i].locked_at_utc = some t ∧
               t ≤ now - _RUNNING_STALE_TIMEOUT_SECONDS) →
        (_requeue_stale_running_jobs current_lock_owner now s).2.jobs[i]
          = { s.jobs[i] with
              status := JobStatus.queued, run_at_utc := now,
              locked_at_utc := none, lock_owner := none,
              last_error := some (_recovered_note
                (s.jobs[i].lock_owner.getD "unknown") current_lock_owner),
              updated_at_utc := now }
        ∧ (_requeue_stale_running_jobs current_lock_owner now s).2.jobs[i].attempts
            = s.jobs[i].attempts)
    ∧ (¬ (s.jobs[i].status = JobStatus.running ∧
          ∃ t, s.jobs[i].locked_at_utc = some t ∧
               t ≤ now - _RUNNING_STALE_TIMEOUT_SECONDS) →
        (_requeue_stale_running_jobs current_lock_owner now s).2.jobs[i] = s.jobs[i]) := by
  refine ⟨rfl, rfl, rfl, by simp [_requeue_stale_running_jobs], ?_⟩
  intro i hi hi2
  constructor
  · intro hC
    have hb : _stale_running (now - _RUNNING_STALE_TIMEOUT_SECONDS) (s.jobs[i]) = true :=
      (_stale_running_iff _ _).mpr hC
    constructor
    · simp [_requeue_stale_running_jobs, hb]
    · simp [_requeue_stale_running_jobs, hb]
  · intro hC
    have hb : _stale_running (now - _RUNNING_STALE_TIMEOUT_SECONDS) (s.jobs[i]) = false := by
      rw [Bool.eq_false_iff]
      intro h
      exact hC ((_stale_running_iff _ _).mp h)
    simp [_requeue_stale_running_jobs, hb]

/-- Witness for C4: the reaper at time 10000 on the store holding one stale
job; the job is recovered with `attempts` untouched. -/
theorem C4_reaper_requeues_stale_witness :
    (0 : Int) < _stale_store.jobs.length
  ∧ (_requeue_stale_running_jobs "w2" 10000 _stale_store).1
      = (_stale_store.jobs.filter
          (_stale_running (10000 - _RUNNING_STALE_TIMEOUT_SECONDS))).length :=
  ⟨by decide, (C4_reaper_requeues_stale "w2" 10000 _stale_store).1⟩

/-- C4 (counterexample to the claim as stated): the reaper does not append
its note to `last_error` — the previous content "previous failure" does not
survive even as a character subsequence of the new `last_error`. -/
theorem C4_reaper_counterexample :
    ((_requeue_stale_running_jobs "w2" 10000 _stale_store).2.jobs.map
        (fun j => j.last_error)) = [some (_recovered_note "w1" "w2")]
  ∧ ¬ ("previous failure".data.Sublist ((_recovered_note "w1" "w2").data)) := by
  constructor
  · rfl
  · decide

/-- Updating the rows with a given id commutes with looking the id up, as
long as the update preserves ids. -/
theorem _find_id_map (l : List PickJob) (jid : Nat) (f : PickJob → PickJob)
    (hf : ∀ j, (f j).id = j.id) :
    (l.map (fun j => if j.id = jid then f j else j)).find?
        (fun j => decide (j.id = jid))
      = (l.find? (fun j => decide (j.id = jid))).map
          (fun j => if j.id = jid then f j else j) := by
  induction l with
  | nil => rfl
  | cons a t ih =>
    by_cases h : a.id = jid
    · simp [List.find?_cons, h, hf]
    · simp [List.find?_cons, h, ih]

/-- The failure handler never touches the pick table (the rollback preceding
it discarded any partial write). -/
theorem _fail_job_picks (jid : Nat) (settings : SettingsSnapshot) (now : Int)
    (msg : String) (s : Store) :
    (_fail_job jid settings now msg s).picks = s.picks := by
  simp only [_fail_job]
  cases s.jobs.find? (fun j => decide (j.id = jid)) <;> rfl

/-- The failure handler never touches the games table. -/
theorem _fail_job_games (jid : Nat) (settings : SettingsSnapshot) (now : Int)
    (msg : String) (s : Store) :
    (_fail_job jid settings now msg s).games = s.games := by
  simp only [_fail_job]
  cases s.jobs.find? (fun j => decide (j.id = jid)) <;> rfl

/-- C9: a job whose game already has a Pick row at execution time is marked
`done` without invoking the Reasoning Client, the Pick table is untouched,
and a second execution of the same job is a no-op with zero further upstream
calls. -/
theorem C9_existing_pick_short_circuit (job : PickJob) (game : Game) (pk : Pick)
    (settings : SettingsSnapshot) (lock_owner : String) (now : Int)
    (ai : AiOutcome) (s : Store)
    (hfind : s.jobs.find? (fun j => decide (j.id = job.id)) = some job)
    (hrun : job.status = JobStatus.running)
    (hown : job.lock_owner = some lock_owner)
    (hgame : s.games.find? (fun g => decide (g.id = job.game_id)) = some game)
    (hpick : s.picks.find? (fun x => decide (x.game_id = job.game_id)) = some pk) :
    (_process_job_sync job.id settings lock_owner now ai s).2 = false
  ∧ (_process_job_sync job.id settings lock_owner now ai s).1.picks = s.picks
  ∧ (∀ j ∈ (_process_job_sync job.id settings lock_owner now ai s).1.jobs,
       j.id = job.id → j.status = JobStatus.done)
  ∧ _process_job_sync job.id settings lock_owner now ai
      ((_process_job_sync job.id settings lock_owner now ai s).1)
      = ((_process_job_sync job.id settings lock_owner now ai s).1, false) := by
  have hbranch : ∃ e : Option String,
      _process_job_sync job.id settings lock_owner now ai s
        = (_mark_done job.id e now s, false) := by
    by_cases hprov : game.provider = "espn"
    · by_cases hsch : _py_lower game.status = "scheduled"
      · by_cases hwin : _is_in_pregame_window game.start_time_utc now 2 = true
        · exact ⟨none, by
            simp [_process_job_sync, hfind, hrun, hown, hgame, hprov, hsch, hwin, hpick]⟩
        · exact ⟨some "Skipped game outside pregame window", by
            have hwin' : _is_in_pregame_window game.start_time_utc now 2 = false :=
              Bool.eq_false_iff.mpr hwin
            simp [_process_job_sync, hfind, hrun, hown, hgame, hprov, hsch, hwin']⟩
      · exact ⟨some ("Skipped game status=" ++ game.status), by
          simp [_process_job_sync, hfind, hrun, hown, hgame, hprov, hsch]⟩
    · exact ⟨some "Skipped non-ESPN game", by
        simp [_process_job_sync, hfind, hrun, hown, hgame, hprov]⟩
  have hdone : ∀ e : Option String, ((_mark_done job.id e now s).jobs.find?
      (fun j => decide (j.id = job.id)))
      = some { job with
               status := JobStatus.done,
               last_error := (match e with
                 | some m => some m
                 | none => job.last_error),
               updated_at_utc := now } := by
    intro e
    simp only [_mark_done]
    rw [_find_id_map s.jobs job.id
      (fun j => { j with
                  status := JobStatus.done,
                  last_error := (match e with
                    | some m => some m
                    | none => j.last_error),
                  updated_at_utc := now })
      (fun j => rfl)]
    rw [hfind]
    cases e <;> simp
  obtain ⟨e, he⟩ := hbranch
  refine ⟨by rw [he], by rw [he]; rfl, ?_, ?_⟩
  · rw [he]
    intro j hj hid
    simp only [_mark_done, List.mem_map] at hj
    obtain ⟨j₀, hj₀, rfl⟩ := hj
    by_cases h : j₀.id = job.id
    · simp [h]
    · simp only [if_neg h] at hid ⊢
      exact absurd hid h
  · rw [he]
    simp only [_process_job_sync, hdone]
    simp

/-- Witness for C9: the claimed job on `_picked_store`, whose game already
has a pick row; the client (here: one that would raise) is never consulted
and the pick table is untouched. -/
theorem C9_existing_pick_short_circuit_witness :
    _picked_store.picks.find?
        (fun x => decide (x.game_id = _claimed_job.game_id)) = some (_new_pick 5 0)
  ∧ (_process_job_sync _claimed_job.id _default_snapshot "worker-1" 0
        (AiOutcome.raises "boom") _picked_store).2 = false
  ∧ (_process_job_sync _claimed_job.id _default_snapshot "worker-1" 0
        (AiOutcome.raises "boom") _picked_store).1.picks = _picked_store.picks :=
  ⟨rfl,
   (C9_existing_pick_short_circuit _claimed_job _espn_game (_new_pick 5 0)
      _default_snapshot "worker-1" 0 (AiOutcome.raises "boom") _picked_store
      rfl rfl rfl rfl rfl).1,
   (C9_existing_pick_short_circuit _claimed_job _espn_game (_new_pick 5 0)
      _default_snapshot "worker-1" 0 (AiOutcome.raises "boom") _picked_store
      rfl rfl rfl rfl rfl).2.1⟩

/-- C10: the payload builder always produces `odds = none`, and consequently
the predicate "every persisted Pick is a zero-stake non-value NO_BET" is
preserved by every run of the job executor. -/
theorem C10_no_odds_payload_invariant :
    (∀ (game : Game) (settings : SettingsSnapshot) (now : Int),
       (build_game_payload game settings now).odds = none)
  ∧ (∀ (job_id : Nat) (settings : SettingsSnapshot) (lock_owner : String)
       (now : Int) (ai : AiOutcome) (s : Store),
       (∀ pk ∈ s.picks, pick_no_bet pk) →
       ∀ pk ∈ (_process_job_sync job_id settings lock_owner now ai s).1.picks,
         pick_no_bet pk) := by
  refine ⟨fun _ _ _ => rfl, ?_⟩
  intro job_id settings lock_owner now ai s hs
  simp only [_process_job_sync]
  cases hj : s.jobs.find? (fun j => decide (j.id = job_id)) with
  | none => exact hs
  | some job =>
    by_cases hguard : job.status ≠ JobStatus.running ∨ job.lock_owner ≠ some lock_owner
    · simp only [if_pos hguard]
      exact hs
    · simp only [if_neg hguard]
      cases hg : s.games.find? (fun g => decide (g.id = job.game_id)) with
      | none =>
        intro pk hpk
        rw [_fail_job_picks] at hpk
        exact hs pk hpk
      | some game =>
        by_cases hprov : game.provider ≠ "espn"
        · simp only [if_pos hprov, _mark_done]
          exact hs
        · simp only [if_neg hprov]
          by_cases hsch : _py_lower game.status ≠ "scheduled"
          · simp only [if_pos hsch, _mark_done]
            exact hs
          · simp only [if_neg hsch]
            by_cases hwin : _is_in_pregame_window game.start_time_utc now 2 = false
            · simp only [if_pos hwin, _mark_done]
              exact hs
            · simp only [if_neg hwin]
              cases hp : s.picks.find? (fun pk => decide (pk.game_id = job.game_id)) with
              | some pk0 => simp only [_mark_done]; exact hs
              | none =>
                cases ai with
                | raises msg =>
                  intro pk hpk
                  rw [_fail_job_picks] at hpk
                  exact hs pk hpk
                | returns p raw =>
                  simp only [build_game_payload, _mark_done, _upsert_pick]
                  intro pk hpk
                  have hgid : game.id = job.game_id := by
                    have h := List.find?_some hg
                    simpa using h
                  rw [hgid] at hpk
                  simp only [hp] at hpk
                  rcases List.mem_append.mp hpk with h | h
                  · exact hs pk h
                  · rcases List.mem_singleton.mp h with rfl
                    exact ⟨rfl, rfl, rfl⟩

/-- Witness for C10: preservation on `_claimed_store` (empty pick table) with
the client returning a staked value bet. -/
theorem C10_no_odds_payload_invariant_witness :
    ∀ pk ∈ (_process_job_sync 1 _default_snapshot "worker-1" 0
        (AiOutcome.returns _bet_payload "raw") _claimed_store).1.picks,
      pick_no_bet pk :=
  C10_no_odds_payload_invariant.2 1 _default_snapshot "worker-1" 0
    (AiOutcome.returns _bet_payload "raw") _claimed_store (by simp [_claimed_store])

/-- The failure handler leaves every job row lock-consistent: the path that
re-queues clears the lock, the path that fails clears it too. -/
theorem _fail_job_lock_ok (jid : Nat) (settings : SettingsSnapshot) (now : Int)
    (msg : String) (s : Store)
    (hinv : ∀ j ∈ s.jobs, lock_metadata_ok j = true) :
    ∀ j ∈ (_fail_job jid settings now msg s).jobs, lock_metadata_ok j = true := by
  intro j hj
  simp only [_fail_job] at hj
  cases hf : s.jobs.find? (fun j => decide (j.id = jid)) with
  | none => rw [hf] at hj; exact hinv j hj
  | some j1 =>
    rw [hf] at hj
    rcases List.mem_map.mp hj with ⟨j₀, hj₀, rfl⟩
    by_cases h : j₀.id = jid
    · by_cases h2 : j₀.attempts + 1 ≤ settings.auto_picks_max_retries
      · simp [if_pos h, if_pos h2, lock_metadata_ok]
      · simp [if_pos h, if_neg h2, lock_metadata_ok]
    · rw [if_neg h]
      exact hinv j₀ hj₀

/-- Marking the job `done` keeps every row lock-consistent, because the row
being marked was `running` and its (non-null) lock stamp is retained. -/
theorem _mark_done_lock_ok (jid : Nat) (e : Option String) (now : Int)
    (s : Store) (job : PickJob)
    (hfind : s.jobs.find? (fun j => decide (j.id = jid)) = some job)
    (hnodup : (s.jobs.map (fun j => j.id)).Nodup)
    (hrun : job.status = JobStatus.running)
    (hinv : ∀ j ∈ s.jobs, lock_metadata_ok j = true) :
    ∀ j ∈ (_mark_done jid e now s).jobs, lock_metadata_ok j = true := by
  intro j hj
  simp only [_mark_done] at hj
  rcases List.mem_map.mp hj with ⟨j₀, hj₀, rfl⟩
  by_cases h : j₀.id = jid
  · have hmem : job ∈ s.jobs := List.mem_of_find?_eq_some hfind
    have hid : job.id = jid := by simpa using List.find?_some hfind
    have hj₀job : j₀ = job :=
      List.inj_on_of_nodup_map hnodup hj₀ hmem (by rw [h, hid])
    subst hj₀job
    have hok := hinv j₀ hj₀
    rw [if_pos h]
    simp only [lock_metadata_ok, hrun] at hok
    simpa [lock_metadata_ok] using hok
  · rw [if_neg h]
    exact hinv j₀ hj₀

/-- Stamping any subset of rows as claimed keeps every row lock-consistent. -/
theorem _claim_stamp_lock_ok (ids : List Nat) (owner : String) (now : Int)
    (l : List PickJob) (hinv : ∀ j ∈ l, lock_metadata_ok j = true) :
    ∀ j ∈ l.map (fun j =>
        if j.id ∈ ids then
          { j with status := JobStatus.running, locked_at_utc := some now,
                   lock_owner := some owner, updated_at_utc := now }
        else j), lock_metadata_ok j = true := by
  intro j hj
  rcases List.mem_map.mp hj with ⟨j₀, hj₀, rfl⟩
  by_cases h : j₀.id ∈ ids
  · simp [if_pos h, lock_metadata_ok]
  · rw [if_neg h]
    exact hinv j₀ hj₀

/-- C1 (amended): every core operation — enqueue, claim, reap, and every
execution path of the job executor — preserves lock-metadata consistency in
the amended sense: `running` and `done` rows have non-null
`locked_at`/`lock_owner`, `queued` and `failed` rows have null ones. -/
theorem C1_lock_metadata_preserved (s : Store)
    (hnodup : (s.jobs.map (fun j => j.id)).Nodup)
    (hinv : ∀ j ∈ s.jobs, lock_metadata_ok j = true) :
    (∀ (n : Nat) (owner : String) (now : Int),
       ∀ j ∈ ((_claim_jobs n owner now s).2).jobs, lock_metadata_ok j = true)
  ∧ (∀ (owner : String) (now : Int),
       ∀ j ∈ ((_requeue_stale_running_jobs owner now s).2).jobs, lock_metadata_ok j = true)
  ∧ (∀ (game : Game) (now w : Int),
       ∀ j ∈ ((_enqueue_for_game game now w s).2).jobs, lock_metadata_ok j = true)
  ∧ (∀ (jid : Nat) (settings : SettingsSnapshot) (owner : String) (now : Int)
       (ai : AiOutcome),
       ∀ j ∈ ((_process_job_sync jid settings owner now ai s).1).jobs,
         lock_metadata_ok j = true) := by
  refine ⟨?_, ?_, ?_, ?_⟩
  · intro n owner now j hj
    simp only [_claim_jobs] at hj
    exact _claim_stamp_lock_ok _ owner now s.jobs hinv j hj
  · intro owner now j hj
    simp only [_requeue_stale_running_jobs] at hj
    rcases List.mem_map.mp hj with ⟨j₀, hj₀, rfl⟩
    by_cases h : _stale_running (now - _RUNNING_STALE_TIMEOUT_SECONDS) j₀ = true
    · simp [h, lock_metadata_ok]
    · rw [if_neg h]
      exact hinv j₀ hj₀
  · intro game now w j hj
    simp only [_enqueue_for_game] at hj
    cases hst : game.start_time_utc with
    | none => simp only [hst] at hj; exact hinv j hj
    | some t =>
      simp only [hst] at hj
      by_cases h1 : _py_lower game.status ≠ "scheduled"
      · rw [if_pos h1] at hj; exact hinv j hj
      · rw [if_neg h1] at hj
        by_cases h2 : ¬ (t - w * 3600 ≤ now ∧ now ≤ t)
        · rw [if_pos h2] at hj; exact hinv j hj
        · rw [if_neg h2] at hj
          cases hpk : s.picks.find? (fun pk => decide (pk.game_id = game.id)) with
          | some pk => simp only [hpk] at hj; exact hinv j hj
          | none =>
            simp only [hpk] at hj
            cases hex : s.jobs.find? (fun j => decide (j.game_id = game.id)) with
            | some ex =>
              simp only [hex] at hj
              by_cases h3 : ex.status ≠ JobStatus.failed
              · rw [if_pos h3] at hj; exact hinv j hj
              · rw [if_neg h3] at hj
                rcases List.mem_map.mp hj with ⟨j₀, hj₀, rfl⟩
                by_cases h4 : j₀.id = ex.id
                · simp [if_pos h4, lock_metadata_ok]
                · rw [if_neg h4]
                  exact hinv j₀ hj₀
            | none =>
              simp only [hex] at hj
              rcases List.mem_append.mp hj with h | h
              · exact hinv j h
              · rcases List.mem_singleton.mp h with rfl
                simp [lock_metadata_ok]
  · intro jid settings owner now ai j hj
    simp only [_process_job_sync] at hj
    cases hf : s.jobs.find? (fun j => decide (j.id = jid)) with
    | none => simp only [hf] at hj; exact hinv j hj
    | some job =>
      simp only [hf] at hj
      by_cases hguard : job.status ≠ JobStatus.running ∨ job.lock_owner ≠ some owner
      · rw [if_pos hguard] at hj
        exact hinv j hj
      · rw [if_neg hguard] at hj
        push_neg at hguard
        have hrun : job.status = JobStatus.running := hguard.1
        cases hg : s.games.find? (fun g => decide (g.id = job.game_id)) with
        | none =>
          simp only [hg] at hj
          exact _fail_job_lock_ok jid settings now _ s hinv j hj
        | some game =>
          simp only [hg] at hj
          by_cases hprov : game.provider ≠ "espn"
          · rw [if_pos hprov] at hj
            exact _mark_done_lock_ok jid _ now s job hf hnodup hrun hinv j hj
          · rw [if_neg hprov] at hj
            by_cases hsch : _py_lower game.status ≠ "scheduled"
            · rw [if_pos hsch] at hj
              exact _mark_done_lock_ok jid _ now s job hf hnodup hrun hinv j hj
            · rw [if_neg hsch] at hj
              by_cases hwin : _is_in_pregame_window game.start_time_utc now 2 = false
              · rw [if_pos hwin] at hj
                exact _mark_done_lock_ok jid _ now s job hf hnodup hrun hinv j hj
              · rw [if_neg hwin] at hj
                cases hp : s.picks.find? (fun pk => decide (pk.game_id = job.game_id)) with
                | some pk0 =>
                  simp only [hp] at hj
                  exact _mark_done_lock_ok jid _ now s job hf hnodup hrun hinv j hj
                | none =>
                  simp only [hp] at hj
                  cases ai with
                  | raises msg =>
                    exact _fail_job_lock_ok jid settings now _ s hinv j hj
                  | returns p raw =>
                    refine _mark_done_lock_ok jid none now _ job hf hnodup hrun hinv j ?_
                    exact hj

/-- Witness for C1: the singleton queued store satisfies both hypotheses and
is preserved by one reaper run. -/
theorem C1_lock_metadata_preserved_witness :
    ((_queued_store.jobs.map (fun j => j.id)).Nodup)
  ∧ (∀ j ∈ ((_requeue_stale_running_jobs "w" 0 _queued_store).2).jobs,
       lock_metadata_ok j = true) :=
  ⟨by decide,
   (C1_lock_metadata_preserved _queued_store (by decide) (by decide)).2.1 "w" 0⟩

/-- C1 (counterexample to the claim as stated): claiming the queued job and
then executing it down a benign-skip path leaves the job `done` with
`locked_at` and `lock_owner` still set — `status=done` does not imply null
lock metadata. -/
theorem C1_lock_metadata_counterexample :
    ∃ j ∈ ((_process_job_sync 1 _default_snapshot "worker-1" 0
        (AiOutcome.raises "unused")
        ((_claim_jobs 1 "worker-1" 0 _queued_store).2)).1).jobs,
      j.status = JobStatus.done ∧ j.locked_at_utc = some 0
        ∧ j.lock_owner = some "worker-1" := by
  have hfilter : _queued_store.jobs.filter (_job_due 0) = [_queued_job] := rfl
  have hclaim : (_claim_jobs 1 "worker-1" 0 _queued_store).2
      = { games := [_other_game], jobs := [_running_other_job], picks := [] } := by
    simp only [_claim_jobs, hfilter, List.mergeSort_singleton]
    rfl
  rw [hclaim]
  decide

/-- The failure handler realises the failure-policy bookkeeping. -/
theorem _fail_job_post (settings : SettingsSnapshot) (now : Int) (msg : String)
    (s : Store) (job : PickJob)
    (hfind : s.jobs.find? (fun j => decide (j.id = job.id)) = some job) :
    failed_attempt_post settings now msg job s (_fail_job job.id settings now msg s) := by
  refine ⟨_fail_job_games _ _ _ _ _, _fail_job_picks _ _ _ _ _, ?_, ?_⟩
  · simp only [_fail_job, hfind]
    rw [_find_id_map s.jobs job.id
      (fun j =>
        if j.attempts + 1 ≤ settings.auto_picks_max_retries then
          { j with attempts := j.attempts + 1, last_error := some msg,
                   updated_at_utc := now, status := JobStatus.queued,
                   run_at_utc := now, locked_at_utc := none, lock_owner := none }
        else
          { j with attempts := j.attempts + 1, last_error := some msg,
                   updated_at_utc := now, status := JobStatus.failed,
                   locked_at_utc := none, lock_owner := none })
      (fun j => by dsimp only; split <;> rfl)]
    rw [hfind]
    simp only [Option.map_some', if_true]
    by_cases h : job.attempts + 1 ≤ settings.auto_picks_max_retries
    · rw [if_pos h]
      exact ⟨_, rfl, rfl, rfl, rfl, rfl, fun _ => ⟨rfl, rfl⟩,
        fun hlt => absurd h (by omega)⟩
    · rw [if_neg h]
      exact ⟨_, rfl, rfl, rfl, rfl, rfl, fun hle => absurd hle h, fun _ => rfl⟩
  · intro j hj hne
    simp only [_fail_job, hfind] at hj
    rcases List.mem_map.mp hj with ⟨j₀, hj₀, rfl⟩
    by_cases h : j₀.id = job.id
    · exfalso
      apply hne
      rw [if_pos h]
      split <;> exact h
    · rw [if_neg h]
      exact hj₀

/-- One all-failing cycle on a single due queued job: the job is claimed and
then either re-queued with one more attempt or failed, per the retry bound. -/
theorem _fail_cycle_step (settings : SettingsSnapshot) (lock_owner msg : String)
    (now : Int) (g : Game)
    (hconc : 1 ≤ settings.auto_picks_concurrency)
    (hprov : g.provider = "espn")
    (hsched : _py_lower g.status = "scheduled")
    (hwin : _is_in_pregame_window g.start_time_utc now 2 = true)
    (j : PickJob) (hgid : j.game_id = g.id) (hq : j.status = JobStatus.queued)
    (hdue : j.run_at_utc ≤ now) :
    _fail_cycle settings lock_owner now msg { games := [g], jobs := [j], picks := [] }
      = { games := [g],
          jobs := [if j.attempts + 1 ≤ settings.auto_picks_max_retries then
              { j with status := JobStatus.queued, attempts := j.attempts + 1,
                       run_at_utc := now, locked_at_utc := none, lock_owner := none,
                       last_error := some msg, updated_at_utc := now }
            else
              { j with status := JobStatus.failed, attempts := j.attempts + 1,
                       locked_at_utc := none, lock_owner := none,
                       last_error := some msg, updated_at_utc := now }],
          picks := [] } := by
  obtain ⟨m, hm⟩ : ∃ m, settings.auto_picks_concurrency = m + 1 :=
    ⟨settings.auto_picks_concurrency - 1, by omega⟩
  have hdue' : _job_due now j = true := by simp [_job_due, hq, hdue]
  have hclaim : _claim_jobs settings.auto_picks_concurrency lock_owner now
      { games := [g], jobs := [j], picks := [] }
      = ([j.id],
        { games := [g],
          jobs := [{ j with
                     status := JobStatus.running, locked_at_utc := some now,
                     lock_owner := some lock_owner, updated_at_utc := now }],
          picks := [] }) := by
    simp only [_claim_jobs]
    rw [show List.filter (_job_due now)
        ({ games := [g], jobs := [j], picks := [] } : Store).jobs = [j] by
      simp [hdue']]
    rw [List.mergeSort_singleton, hm]
    simp
  have hproc : (_process_job_sync j.id settings lock_owner now (AiOutcome.raises msg)
      { games := [g],
        jobs := [{ j with
                   status := JobStatus.running, locked_at_utc := some now,
                   lock_owner := some lock_owner, updated_at_utc := now }],
        picks := [] }).1
      = { games := [g],
          jobs := [if j.attempts + 1 ≤ settings.auto_picks_max_retries then
              { j with status := JobStatus.queued, attempts := j.attempts + 1,
                       run_at_utc := now, locked_at_utc := none, lock_owner := none,
                       last_error := some msg, updated_at_utc := now }
            else
              { j with status := JobStatus.failed, attempts := j.attempts + 1,
                       locked_at_utc := none, lock_owner := none,
                       last_error := some msg, updated_at_utc := now }],
          picks := [] } := by
    simp only [_process_job_sync, _fail_job, List.find?_cons]
    simp [hgid, hprov, hsched, hwin, _mark_done]
  simp only [_fail_cycle, hclaim, List.foldl_cons, List.foldl_nil]
  exact hproc

/-- After `k` all-failing cycles (for `1 <= k <= max_retries`), the job is
queued again with `attempts = k`, re-eligible immediately. -/
theorem _fail_cycle_iter (settings : SettingsSnapshot) (lock_owner msg : String)
    (now : Int) (g : Game)
    (hconc : 1 ≤ settings.auto_picks_concurrency)
    (hprov : g.provider = "espn")
    (hsched : _py_lower g.status = "scheduled")
    (hwin : _is_in_pregame_window g.start_time_utc now 2 = true)
    (j : PickJob) (hgid : j.game_id = g.id) (hq : j.status = JobStatus.queued)
    (hdue : j.run_at_utc ≤ now) (ha : j.attempts = 0) :
    ∀ k, 1 ≤ k → k ≤ settings.auto_picks_max_retries →
      (_fail_cycle settings lock_owner now msg)^[k]
          { games := [g], jobs := [j], picks := [] }
        = { games := [g],
            jobs := [{ j with
                       status := JobStatus.queued, attempts := k, run_at_utc := now,
                       locked_at_utc := none, lock_owner := none,
                       last_error := some msg, updated_at_utc := now }],
            picks := [] } := by
  intro k hk1 hkR
  induction k with
  | zero => omega
  | succ n ih =>
    rcases Nat.eq_zero_or_pos n with h0 | hpos
    · subst h0
      rw [Function.iterate_one]
      rw [_fail_cycle_step settings lock_owner msg now g hconc hprov hsched hwin
        j hgid hq hdue]
      rw [if_pos (by omega)]
      simp [ha]
    · have ihh := ih (by omega) (by omega)
      rw [Function.iterate_succ_apply', ihh]
      rw [_fail_cycle_step settings lock_owner msg now g hconc hprov hsched hwin
        ({ j with
           status := JobStatus.queued, attempts := n, run_at_utc := now,
           locked_at_utc := none, lock_owner := none,
           last_error := some msg, updated_at_utc := now })
        hgid rfl (le_refl now)]
      rw [if_pos (show ({ j with
            status := JobStatus.queued, attempts := n, run_at_utc := now,
            locked_at_utc := none, lock_owner := none,
            last_error := some msg, updated_at_utc := now } : PickJob).attempts + 1
          ≤ settings.auto_picks_max_retries by
        simpa using hkR)]

/-- C2: any exception during a claimed job's execution makes the executor
roll back partial writes, increment `attempts` by exactly one, clear the
lock, record `last_error`, and re-queue with `run_at=now` when
`attempts <= max_retries`, else fail permanently — shown for the Reasoning
Client raising (first conjunct) and for the step-2 "game not found" failure
(second conjunct); consequently (third conjunct) a job failing on every
attempt ends `failed` after exactly `max_retries + 1` total attempts. -/
theorem C2_failure_retry_policy :
    (∀ (settings : SettingsSnapshot) (lock_owner msg : String) (now : Int)
       (s : Store) (job : PickJob) (game : Game),
       s.jobs.find? (fun j => decide (j.id = job.id)) = some job →
       job.status = JobStatus.running →
       job.lock_owner = some lock_owner →
       s.games.find? (fun g => decide (g.id = job.game_id)) = some game →
       game.provider = "espn" →
       _py_lower game.status = "scheduled" →
       _is_in_pregame_window game.start_time_utc now 2 = true →
       s.picks.find? (fun pk => decide (pk.game_id = job.game_id)) = none →
       failed_attempt_post settings now msg job s
         ((_process_job_sync job.id settings lock_owner now
             (AiOutcome.raises msg) s).1))
  ∧ (∀ (settings : SettingsSnapshot) (lock_owner : String) (now : Int)
       (ai : AiOutcome) (s : Store) (job : PickJob),
       s.jobs.find? (fun j => decide (j.id = job.id)) = some job →
       job.status = JobStatus.running →
       job.lock_owner = some lock_owner →
       s.games.find? (fun g => decide (g.id = job.game_id)) = none →
       failed_attempt_post settings now "RuntimeError: Game not found for job."
         job s ((_process_job_sync job.id settings lock_owner now ai s).1))
  ∧ (∀ (settings : SettingsSnapshot) (lock_owner msg : String) (now : Int)
       (g : Game) (j : PickJob),
       1 ≤ settings.auto_picks_concurrency →
       g.provider = "espn" →
       _py_lower g.status = "scheduled" →
       _is_in_pregame_window g.start_time_utc now 2 = true →
       j.game_id = g.id → j.status = JobStatus.queued →
       j.run_at_utc ≤ now → j.attempts = 0 →
       ∃ j', ((_fail_cycle settings lock_owner now msg)^[settings.auto_picks_max_retries + 1]
           { games := [g], jobs := [j], picks := [] }).jobs = [j']
         ∧ j'.status = JobStatus.failed
         ∧ j'.attempts = settings.auto_picks_max_retries + 1) := by
  refine ⟨?_, ?_, ?_⟩
  · intro settings lock_owner msg now s job game hfind hrun hown hgame hprov hsched hwin hnopick
    have hred : _process_job_sync job.id settings lock_owner now
        (AiOutcome.raises msg) s = (_fail_job job.id settings now msg s, true) := by
      simp only [_process_job_sync, hfind, hrun, hown, hgame, hprov, hsched, hwin, hnopick]
      simp
    rw [hred]
    exact _fail_job_post settings now msg s job hfind
  · intro settings lock_owner now ai s job hfind hrun hown hnogame
    have hred : _process_job_sync job.id settings lock_owner now ai s
        = (_fail_job job.id settings now "RuntimeError: Game not found for job." s,
           false) := by
      simp only [_process_job_sync, hfind, hrun, hown, hnogame]
      simp
    rw [hred]
    exact _fail_job_post settings now _ s job hfind
  · intro settings lock_owner msg now g j hconc hprov hsched hwin hgid hq hdue ha
    rcases Nat.eq_zero_or_pos settings.auto_picks_max_retries with hR | hR
    · rw [hR, Function.iterate_one]
      rw [_fail_cycle_step settings lock_owner msg now g hconc hprov hsched hwin
        j hgid hq hdue]
      rw [if_neg (by omega)]
      exact ⟨_, rfl, rfl, by simp [ha, hR]⟩
    · have hiter := _fail_cycle_iter settings lock_owner msg now g hconc hprov
        hsched hwin j hgid hq hdue ha settings.auto_picks_max_retries hR (le_refl _)
      rw [Function.iterate_succ_apply', hiter]
      rw [_fail_cycle_step settings lock_owner msg now g hconc hprov hsched hwin
        ({ j with
           status := JobStatus.queued, attempts := settings.auto_picks_max_retries,
           run_at_utc := now, locked_at_utc := none, lock_owner := none,
           last_error := some msg, updated_at_utc := now })
        hgid rfl (le_refl now)]
      rw [if_neg (show ¬ (({ j with
            status := JobStatus.queued, attempts := settings.auto_picks_max_retries,
            run_at_utc := now, locked_at_utc := none, lock_owner := none,
            last_error := some msg, updated_at_utc := now } : PickJob).attempts + 1
          ≤ settings.auto_picks_max_retries) by simp)]
      exact ⟨_, rfl, rfl, rfl⟩

/-- Witness for C2: the default snapshot (`max_retries = 2`) on
`_queued_store`'s job re-targeted at `_espn_game`: three all-failing cycles
end in `failed` with `attempts = 3`. -/
theorem C2_failure_retry_policy_witness :
    1 ≤ _default_snapshot.auto_picks_concurrency
  ∧ ∃ j', ((_fail_cycle _default_snapshot "worker-1" 0 "OpenAIClientError: boom")^[_default_snapshot.auto_picks_max_retries + 1]
        { games := [_espn_game], jobs := [_queued_job], picks := [] }).jobs = [j']
      ∧ j'.status = JobStatus.failed
      ∧ j'.attempts = _default_snapshot.auto_picks_max_retries + 1 :=
  ⟨by decide,
   C2_failure_retry_policy.2.2 _default_snapshot "worker-1" "OpenAIClientError: boom"
     0 _espn_game _queued_job (by decide) rfl (by decide) (by decide) rfl rfl
     (by decide) rfl⟩

/-- A two-element sublist of a duplicate-free list survives truncation as
soon as its later element survives. -/
theorem _pair_sublist_take {α : Type} (a b : α) (L : List α) (n : Nat)
    (hab : [a, b].Sublist L) (hb : b ∈ L.take n) (hnd : L.Nodup) :
    [a, b].Sublist (L.take n) := by
  induction L generalizing n with
  | nil => simp at hab
  | cons x t ih =>
    cases n with
    | zero => simp at hb
    | succ m =>
      simp only [List.take_succ_cons] at hb ⊢
      cases hab with
      | cons _ h =>
        have hbt : b ∈ t := h.subset (by simp)
        have hbx : b ≠ x := by
          intro he
          rw [he] at hbt
          exact (List.nodup_cons.mp hnd).1 hbt
        have hb' : b ∈ t.take m := by
          rcases List.mem_cons.mp hb with h1 | h1
          · exact absurd h1 hbx
          · exact h1
        exact List.Sublist.cons x (ih m h hb' (List.nodup_cons.mp hnd).2)
      | cons₂ _ h =>
        have hbt : b ∈ t := h.subset (by simp)
        have hbx : b ≠ a := by
          intro he
          rw [he] at hbt
          exact (List.nodup_cons.mp hnd).1 hbt
        have hb' : b ∈ t.take m := by
          rcases List.mem_cons.mp hb with h1 | h1
          · exact absurd h1 hbx
          · exact h1
        exact List.Sublist.cons₂ a (List.singleton_sublist.mpr hb')

/-- C7: the claimer selects at most `max_n` queued jobs whose `run_at` has
passed, in ascending `run_at` order with ties broken by insertion order,
stamps exactly the selected rows `running` with `locked_at=now` and the
owner, returns exactly their ids, and is a no-op returning `[]` when no job
is eligible; games and picks are never touched. -/
theorem C7_claimer_contract (n : Nat) (owner : String) (now : Int) (s : Store)
    (hnodup : (s.jobs.map (fun j => j.id)).Nodup) :
    (_claim_jobs n owner now s).1.length ≤ n
  ∧ (∀ i ∈ (_claim_jobs n owner now s).1, ∃ j ∈ s.jobs,
       j.id = i ∧ j.status = JobStatus.queued ∧ j.run_at_utc ≤ now)
  ∧ (_claim_jobs n owner now s).2.games = s.games
  ∧ (_claim_jobs n owner now s).2.picks = s.picks
  ∧ (_claim_jobs n owner now s).2.jobs = s.jobs.map (fun j =>
       if j.id ∈ (_claim_jobs n owner now s).1 then
         { j with status := JobStatus.running, locked_at_utc := some now,
                  lock_owner := some owner, updated_at_utc := now }
       else j)
  ∧ (∃ sel : List PickJob, (_claim_jobs n owner now s).1 = sel.map (fun j => j.id)
       ∧ sel.Pairwise (fun a b => a.run_at_utc ≤ b.run_at_utc)
       ∧ ∀ j ∈ sel, j ∈ s.jobs ∧ j.status = JobStatus.queued ∧ j.run_at_utc ≤ now)
  ∧ (∀ a b : PickJob, [a, b].Sublist s.jobs →
       _job_due now a = true → _job_due now b = true →
       a.run_at_utc = b.run_at_utc →
       b.id ∈ (_claim_jobs n owner now s).1 →
       a.id ∈ (_claim_jobs n owner now s).1
         ∧ [a.id, b.id].Sublist (_claim_jobs n owner now s).1)
  ∧ ((∀ j ∈ s.jobs, _job_due now j = false) →
       (_claim_jobs n owner now s).1 = [] ∧ (_claim_jobs n owner now s).2 = s) := by
  have htrans : ∀ (a b c : PickJob),
      _run_at_le a b → _run_at_le b c → _run_at_le a c := by
    intro a b c hab hbc
    simp only [_run_at_le, decide_eq_true_eq] at *
    omega
  have htotal : ∀ (a b : PickJob), _run_at_le a b || _run_at_le b a := by
    intro a b
    simp only [_run_at_le]
    by_cases h : a.run_at_utc ≤ b.run_at_utc
    · simp [h]
    · simp only [h]
      simp
      omega
  have hjobs_nd : s.jobs.Nodup := List.Nodup.of_map _ hnodup
  have hel_nd : (s.jobs.filter (_job_due now)).Nodup := hjobs_nd.filter _
  have hL_nd : ((s.jobs.filter (_job_due now)).mergeSort _run_at_le).Nodup :=
    ((List.mergeSort_perm (s.jobs.filter (_job_due now)) _run_at_le).nodup_iff).mpr
      hel_nd
  simp only [_claim_jobs]
  refine ⟨?_, ?_, ?_, ?_, ?_, ?_, ?_, ?_⟩
  case refine_3 => trivial
  case refine_4 => trivial
  case refine_5 => trivial
  · simp only [List.length_map, List.length_take]
    exact Nat.min_le_left _ _
  · intro i hi
    rcases List.mem_map.mp hi with ⟨c, hc, rfl⟩
    have hcel := List.mem_mergeSort.mp (List.mem_of_mem_take hc)
    rcases List.mem_filter.mp hcel with ⟨hcjobs, hdue⟩
    simp only [_job_due, decide_eq_true_eq] at hdue
    exact ⟨c, hcjobs, rfl, hdue.1, hdue.2⟩
  · refine ⟨_, rfl, ?_, ?_⟩
    · have hp : ((s.jobs.filter (_job_due now)).mergeSort _run_at_le).Pairwise
          (fun a b => _run_at_le a b = true) :=
        List.sorted_mergeSort htrans htotal _
      exact (List.Pairwise.sublist (List.take_sublist _ _) hp).imp
        (by intro a b h; simpa [_run_at_le] using h)
    · intro j hj
      have hel := List.mem_mergeSort.mp (List.mem_of_mem_take hj)
      rcases List.mem_filter.mp hel with ⟨hjobs, hdue⟩
      simp only [_job_due, decide_eq_true_eq] at hdue
      exact ⟨hjobs, hdue.1, hdue.2⟩
  · intro a b hab ha hb heq hbid
    have hab' : [a, b].Sublist (s.jobs.filter (_job_due now)) := by
      have h2 := hab.filter (_job_due now)
      simpa [ha, hb] using h2
    have hle : _run_at_le a b = true := by simp [_run_at_le, heq]
    have hL : [a, b].Sublist ((s.jobs.filter (_job_due now)).mergeSort _run_at_le) :=
      List.pair_sublist_mergeSort htrans htotal hle hab'
    rcases List.mem_map.mp hbid with ⟨c, hcsel, hcid⟩
    have hcjobs : c ∈ s.jobs :=
      (List.mem_filter.mp (List.mem_mergeSort.mp (List.mem_of_mem_take hcsel))).1
    have hbjobs : b ∈ s.jobs := hab.subset (by simp)
    have hcb : c = b := List.inj_on_of_nodup_map hnodup hcjobs hbjobs hcid
    have hbtake : b ∈ ((s.jobs.filter (_job_due now)).mergeSort _run_at_le).take n :=
      hcb ▸ hcsel
    have hpair := _pair_sublist_take a b _ n hL hbtake hL_nd
    constructor
    · exact List.mem_map_of_mem _ (hpair.subset (by simp))
    · simpa using hpair.map (fun j => j.id)
  · intro hno
    have hfil : s.jobs.filter (_job_due now) = [] :=
      List.filter_eq_nil_iff.mpr (fun j hj => by simp [hno j hj])
    rw [hfil]
    constructor
    · simp
    · simp

/-- Witness for C7: a two-job store (distinct ids) claimed with `max_n = 1`. -/
theorem C7_claimer_contract_witness :
    (( { games := [_espn_game], jobs := [_queued_job, { _stale_job with id := 2 }], picks := [] }
        : Store).jobs.map (fun j => j.id)).Nodup
  ∧ (_claim_jobs 1 "worker-1" 0
      { games := [_espn_game], jobs := [_queued_job, { _stale_job with id := 2 }], picks := [] }).1.length ≤ 1 :=
  ⟨by decide,
   (C7_claimer_contract 1 "worker-1" 0
      { games := [_espn_game], jobs := [_queued_job, { _stale_job with id := 2 }], picks := [] }
      (by decide)).1⟩

end BetTracker
